import Mathlib

/-!
Verification development for the `pyqcsnu` client library
(`src/pyqcsnu/client.py`, `src/pyqcsnu/models.py`, `src/pyqcsnu/exceptions.py`).

The Python code is shallowly embedded: JSON-compatible trees become the
inductive `Json`, Python exceptions become the inductive `PyErr`, fallible
Python code returns `Except PyErr _`, and the blocking HTTP transport is an
explicit input (`TransportOutcome`).  Numbers in payloads are modelled as
rationals (`Rat`); measurement counts and ids are integer-valued.
-/

set_option autoImplicit false

namespace Pyqcsnu

/-- A JSON-compatible Python value, as produced by `response.json()`:
`dict`, `list`, `str`, numbers, `bool`, `None`. -/
inductive Json where
  | null : Json
  | str (s : String) : Json
  | num (n : Rat) : Json
  | bool (b : Bool) : Json
  | arr (elems : List Json) : Json
  | obj (fields : List (String × Json)) : Json

/-- First value bound to `key` in an association list (Python `dict` lookup;
the modelled payloads have distinct keys, so first-match is exact). -/
def lookupField : List (String × Json) → String → Option Json
  | [], _ => none
  | (k, v) :: rest, key => if k = key then some v else lookupField rest key

/-- Python `data.get(key)` / `key in data`; on a non-`dict` the modelled
payloads never look up a key, and membership tests are `False`. -/
def Json.getField : Json → String → Option Json
  | .obj fields, key => lookupField fields key
  | _, _ => none

/-- Python `data[key]`: `KeyError` when absent (signalled by `none` here;
callers wrap it into the appropriate `PyErr`). -/
def Json.truthy : Json → Bool
  | .null => false
  | .str s => !s.isEmpty
  | .num n => n ≠ 0
  | .bool b => b
  | .arr elems => !elems.isEmpty
  | .obj fields => !fields.isEmpty

/-- Remove a key from a JSON object (other shapes unchanged).  Used to state
which keys a decoder reads. -/
def Json.eraseField : Json → String → Json
  | .obj fields, key => .obj (fields.filter (fun p => p.1 != key))
  | j, _ => j

/-- The exception taxonomy.  Constructors `quantumClientError` through
`validationError` are the classes of `exceptions.py` (all subclasses of
`QuantumClientError`); `valueError`, `attributeError`, `keyError` and
`indexError` are the Python built-ins the source also raises.
`experimentError` is raised by `client.py` but has no class definition in
`exceptions.py` (the `from .exceptions import ExperimentError` there can in
fact not succeed); it is included so the raise sites can be embedded. -/
inductive PyErr where
  | quantumClientError (msg : String)
  | authenticationError (msg : String)
  | apiError (msg : String)
  | jobError (msg : String)
  | experimentError (msg : String)
  | backendError (msg : String)
  | circuitError (msg : String)
  | resultError (msg : String)
  | timeoutError (msg : String)
  | validationError (msg : String)
  | valueError (msg : String)
  | typeError (msg : String)
  | attributeError (msg : String)
  | keyError (msg : String)
  | indexError (msg : String)
  deriving DecidableEq

/-- Whether the exception is a `QuantumClientError` (the base class of
`exceptions.py`); `except (JobError, QuantumClientError)` in
`wait_for_job` catches exactly these. -/
def isClientError : PyErr → Bool
  | .quantumClientError _ => true
  | .authenticationError _ => true
  | .apiError _ => true
  | .jobError _ => true
  | .experimentError _ => true
  | .backendError _ => true
  | .circuitError _ => true
  | .resultError _ => true
  | .timeoutError _ => true
  | .validationError _ => true
  | .valueError _ => false
  | .typeError _ => false
  | .attributeError _ => false
  | .keyError _ => false
  | .indexError _ => false

/-- Python `str(e)` on an exception: its message. -/
def pyErrStr : PyErr → String
  | .quantumClientError m => m
  | .authenticationError m => m
  | .apiError m => m
  | .jobError m => m
  | .experimentError m => m
  | .backendError m => m
  | .circuitError m => m
  | .resultError m => m
  | .timeoutError m => m
  | .validationError m => m
  | .valueError m => m
  | .typeError m => m
  | .attributeError m => m
  | .keyError m => m
  | .indexError m => m

/-- `.validationError` discriminator, for refutations. -/
def isValidationError : PyErr → Bool
  | .validationError _ => true
  | _ => false

/-! ## Transport wrapper: `SNUQ._make_request` (client.py lines 154-235) -/

/-- An HTTP response as the `requests` session delivers it: status code, raw
body text, and the outcome of `response.json()` (`none` when the body is not
valid JSON). -/
structure HttpResponse where
  status : Nat
  text : String
  json : Option Json

/-- What the blocking transport call produced: either a
`requests.RequestException` (connection error, timeout, ...) with its string
form, or an HTTP response. -/
inductive TransportOutcome where
  | exception (msg : String)
  | response (r : HttpResponse)

/-- Python `not self.token`: the token is `None` or the empty string. -/
def tokenMissing : Option String → Bool
  | none => true
  | some s => s.isEmpty

/-- The single endpoint `_make_request` exempts from the token check
(client.py line 182). -/
def loginExemptPath : String := "/api/token/"

/-- Whether `needle` occurs at the head of `hay`. -/
def headMatches : List Char → List Char → Bool
  | _, [] => true
  | [], _ :: _ => false
  | h :: t, nh :: nt => h = nh && headMatches t nt

/-- Whether `needle` occurs contiguously anywhere in `hay`. -/
def subScan (needle : List Char) : List Char → Bool
  | [] => needle.isEmpty
  | h :: t => headMatches (h :: t) needle || subScan needle t

/-- `"needle" in endpoint` (Python substring test). -/
def containsSub (hay needle : String) : Bool :=
  subScan needle.toList hay.toList

/-- `error_data.get("error", fallback)`: the server-supplied error message
when the payload has a string `"error"` field, else the fixed fallback.
(The modelled payloads carry string error messages.) -/
def errMsgOf (errorData : Json) (fallback : String) : String :=
  match errorData.getField "error" with
  | some (.str s) => s
  | _ => fallback

/-- `error_data = response.json() if response.text else {"error": "Unknown error"}`
(client.py line 214).  A non-empty body that is not valid JSON makes
`response.json()` raise `requests.exceptions.JSONDecodeError`, which is a
`RequestException` and is therefore re-wrapped by the outer handler into
`QuantumClientError("Request failed: ...")`; the exact interpreter message is
abstracted. -/
def errorData (r : HttpResponse) : Except PyErr Json :=
  if r.text = "" then .ok (Json.obj [("error", Json.str "Unknown error")])
  else
    match r.json with
    | some j => .ok j
    | none => .error (.quantumClientError "Request failed: response body is not valid JSON")

/-- Status-code handling and body parsing of `_make_request`
(client.py lines 206-231), for a response that did arrive. -/
def mapResponse (endpoint : String) (r : HttpResponse) : Except PyErr Json :=
  if 500 ≤ r.status then
    .error (.quantumClientError ("Server error: " ++ r.text))
  else if r.status = 401 then
    .error (.authenticationError "Authentication failed")
  else if r.status = 403 then
    .error (.authenticationError "Permission denied")
  else if 400 ≤ r.status then
    match errorData r with
    | .error e => .error e
    | .ok ed =>
      if containsSub endpoint "job" then
        .error (.jobError (errMsgOf ed "Job operation failed"))
      else if containsSub endpoint "experiment" then
        .error (.experimentError (errMsgOf ed "Experiment operation failed"))
      else if containsSub endpoint "backend" then
        .error (.backendError (errMsgOf ed "Backend operation failed"))
      else
        .error (.quantumClientError (errMsgOf ed "Operation failed"))
  else
    match r.json with
    | some j => .ok j
    | none => .ok (Json.obj [("message", Json.str r.text)])

/-- `SNUQ._make_request(method, endpoint, ...)`.  The token check precedes
the method dispatch and the transport call, so an authentication failure is
independent of the `net` argument.  A `RequestException` is re-wrapped into
`QuantumClientError("Request failed: " + str(e))`; the raw transport
exception never escapes. -/
def make_request (token : Option String) (method endpoint : String)
    (net : TransportOutcome) : Except PyErr Json :=
  if tokenMissing token = true ∧ endpoint ≠ loginExemptPath then
    .error (.authenticationError "Not authenticated. Call login() first.")
  else if ¬ (method = "GET" ∨ method = "POST" ∨ method = "PUT" ∨ method = "DELETE") then
    .error (.quantumClientError ("Unsupported method: " ++ method))
  else
    match net with
    | .exception m => .error (.quantumClientError ("Request failed: " ++ m))
    | .response r => mapResponse endpoint r

/-! ## Hamiltonian (models.py lines 192-226) -/

/-- `Hamiltonian` dataclass after a successful `__post_init__`:
`num_qubits` has been filled in. -/
structure Hamiltonian where
  operators : List String
  coefficients : List Rat
  num_qubits : Nat
  deriving DecidableEq

/-- The `ValueError` message for a length mismatch (models.py lines 200-203). -/
def lenMismatchMsg (numOps numCoeffs : Nat) : String :=
  "Expected same length for operators (" ++ toString numOps ++
    ") and coefficients (" ++ toString numCoeffs ++ ")."

/-- `Hamiltonian(operators, coefficients, num_qubits)` construction including
`__post_init__` (models.py lines 198-208): a length mismatch raises
`ValueError`; a missing `num_qubits` is inferred from `operators[0]`
(`IndexError` when `operators` is empty); an empty operator string raises
`ValueError` (the Python `repr` quoting in that message is elided).  With
`num_qubits` supplied, empty `operators`/`coefficients` construct fine. -/
def mkHamiltonian (operators : List String) (coefficients : List Rat)
    (num_qubits : Option Nat) : Except PyErr Hamiltonian :=
  if operators.length ≠ coefficients.length then
    .error (.valueError (lenMismatchMsg operators.length coefficients.length))
  else
    match (match num_qubits with
           | some n => Except.ok n
           | none =>
             match operators with
             | [] => Except.error (PyErr.indexError "list index out of range")
             | op :: _ => Except.ok op.length) with
    | .error e => .error e
    | .ok n =>
      match operators.find? (fun op => op.isEmpty) with
      | some op => .error (.valueError ("Invalid operator: " ++ op))
      | none => .ok ⟨operators, coefficients, n⟩

/-- `Hamiltonian.to_dict` (models.py lines 210-215). -/
def Hamiltonian.to_dict (h : Hamiltonian) : Json :=
  Json.obj [("num_qubits", Json.num h.num_qubits),
            ("operators", Json.arr (h.operators.map Json.str)),
            ("coefficients", Json.arr (h.coefficients.map Json.num))]

/-! ## MitigationParams (models.py lines 168-188) -/

/-- `MitigationParams` dataclass; field values are kept as the raw JSON the
payload carried. -/
structure MitigationParams where
  technique : Json
  params : Json

/-- `MitigationParams.to_dict` (models.py lines 175-180). -/
def MitigationParams.to_dict (m : MitigationParams) : Json :=
  Json.obj [("technique", m.technique), ("params", m.params)]

/-- `MitigationParams.from_dict` (models.py lines 182-188):
`data["technique"]` raises `KeyError` when absent; `params` defaults to `{}`. -/
def MitigationParams.from_dict (data : Json) : Except PyErr MitigationParams :=
  match data.getField "technique" with
  | none => .error (.keyError "technique")
  | some t => .ok ⟨t, (data.getField "params").getD (Json.obj [])⟩

/-! ## BlackholeJob (models.py lines 269-313) -/

/-- Python `s.replace(old, new)` on an `str`; any other JSON value has no
`replace` attribute. -/
def asStrForReplace : Json → Except PyErr String
  | .str s => .ok s
  | _ => .error (.attributeError "replace")

/-- `s.replace("Z", "+00:00")` character by character. -/
def replaceZChars : List Char → List Char
  | [] => []
  | c :: rest =>
    if c = 'Z' then '+' :: '0' :: '0' :: ':' :: '0' :: '0' :: replaceZChars rest
    else c :: replaceZChars rest

/-- `datetime.fromisoformat(s.replace("Z", "+00:00"))`, with the datetime
modelled by its normalised ISO string: for the canonical ISO strings of the
modelled payloads, `.isoformat()` returns exactly this string. -/
def fromIsoNormalised (s : String) : String :=
  ⟨replaceZChars s.data⟩

/-- `BlackholeJob` as `from_dict` actually builds it: `circuit` holds the raw
`data["circuit_info"]` JSON value (the dataclass annotation promises a
`QuantumCircuit`, but `from_dict` never converts), and the other fields hold
the raw JSON of the payload. -/
structure BlackholeJob where
  id : Json
  status : Json
  circuit : Json
  backend : Json
  shots : Json
  created_at : String
  updated_at : String
  error_message : Option Json
  mitigation_params : Option MitigationParams
  metadata : Json

/-- `BlackholeJob.from_dict` (models.py lines 299-313).  Required keys raise
`KeyError` when absent; `mitigation_params` is decoded only when the value is
truthy (`if data.get("mitigation_params")`); `metadata` defaults to `{}`. -/
def BlackholeJob.from_dict (data : Json) : Except PyErr BlackholeJob := do
  let id ← match data.getField "id" with
    | some v => pure v
    | none => .error (.keyError "id")
  let status ← match data.getField "status" with
    | some v => pure v
    | none => .error (.keyError "status")
  let circuit ← match data.getField "circuit_info" with
    | some v => pure v
    | none => .error (.keyError "circuit_info")
  let backend ← match data.getField "backend" with
    | some v => pure v
    | none => .error (.keyError "backend")
  let shots ← match data.getField "shots" with
    | some v => pure v
    | none => .error (.keyError "shots")
  let createdRaw ← match data.getField "created_at" with
    | some v => pure v
    | none => .error (.keyError "created_at")
  let updatedRaw ← match data.getField "updated_at" with
    | some v => pure v
    | none => .error (.keyError "updated_at")
  let created ← asStrForReplace createdRaw
  let updated ← asStrForReplace updatedRaw
  let mp ← match data.getField "mitigation_params" with
    | some v =>
      if v.truthy then (MitigationParams.from_dict v).map some else pure none
    | none => pure none
  pure { id := id, status := status, circuit := circuit, backend := backend,
         shots := shots,
         created_at := fromIsoNormalised created,
         updated_at := fromIsoNormalised updated,
         error_message := data.getField "error_message",
         mitigation_params := mp,
         metadata := (data.getField "metadata").getD (Json.obj []) }

/-- Calling `.to_dict()` on a JSON-decoded Python value.  Such a value is a
`dict`, `list`, `str`, number, `bool` or `None`, and none of these types has
a `to_dict` attribute, so the call raises `AttributeError` (message abridged
to the missing attribute name). -/
def callToDictAttr : Json → Except PyErr Json
  | _ => .error (.attributeError "to_dict")

/-- `BlackholeJob.to_dict` (models.py lines 284-297).  The dict literal
evaluates its values in key order, so `self.circuit.to_dict()` runs before
the remaining fields are assembled. -/
def BlackholeJob.to_dict (j : BlackholeJob) : Except PyErr Json := do
  let circuitDict ← callToDictAttr j.circuit
  pure (Json.obj
    [("id", j.id), ("status", j.status), ("circuit_info", circuitDict),
     ("backend", j.backend), ("shots", j.shots),
     ("created_at", Json.str j.created_at),
     ("updated_at", Json.str j.updated_at),
     ("error_message", (j.error_message).getD Json.null),
     ("mitigation_params",
        match j.mitigation_params with
        | some m => m.to_dict
        | none => Json.null),
     ("metadata", j.metadata)])

/-! ## BlackholeResult (models.py lines 357-425) -/

/-- `BlackholeResult` dataclass.  Its fields are exactly `id`, `job_id`,
`metadata`, `processed_results` and `mitigation_params`; there is no
`counts` field, and no code path ever sets a `counts` attribute. -/
structure BlackholeResult where
  id : Option Json
  job_id : Option Json
  metadata : Json
  processed_results : Option Json
  mitigation_params : Option Json

/-- `BlackholeResult.from_dict` (models.py lines 376-393): every field is
read with `data.get(...)`, so the decode never raises; `processed_results`
is stored verbatim; a top-level `counts` key is not read. -/
def BlackholeResult.from_dict (data : Json) : BlackholeResult :=
  { id := data.getField "id",
    job_id := data.getField "job_id",
    metadata := (data.getField "metadata").getD (Json.obj []),
    processed_results := data.getField "processed_results",
    mitigation_params := data.getField "mitigation_params" }

/-- The attribute access `self.counts` on a `BlackholeResult`: the dataclass
has no such field and no constructor path sets one, so it raises
`AttributeError`. -/
def BlackholeResult.countsAttr (_ : BlackholeResult) : Except PyErr Json :=
  .error (.attributeError "counts")

/-- `sum(counts.values())` for a counts dict with numeric values. -/
def sumValues : Json → Rat
  | .obj fields => fields.foldl (fun acc p =>
      match p.2 with
      | .num n => acc + n
      | _ => acc) 0
  | _ => 0

/-- `counts.get(bitstring, 0)` for a counts dict with numeric values. -/
def countOf (counts : Json) (bitstring : String) : Rat :=
  match counts.getField bitstring with
  | some (.num n) => n
  | _ => 0

/-- The arithmetic of `get_probability` applied to a counts dict:
`counts.get(bitstring, 0) / sum(counts.values())`. -/
def probFromCounts (counts : Json) (bitstring : String) : Rat :=
  countOf counts bitstring / sumValues counts

/-- The arithmetic of `get_expectation_value` applied to a counts dict:
sum of `observable[bitstring] * count / total` over the counts entries whose
bitstring appears in the observable. -/
def expvalFromCounts (counts : Json) (observable : List (String × Rat)) : Rat :=
  match counts with
  | .obj fields =>
    fields.foldl (fun acc p =>
      match lookupField (observable.map (fun q => (q.1, Json.num q.2))) p.1 with
      | some (.num coeff) =>
        match p.2 with
        | .num n => acc + coeff * (n / sumValues counts)
        | _ => acc
      | _ => acc) 0
  | _ => 0

/-- `BlackholeResult.get_probability` (models.py lines 414-425): the first
expression evaluated is `sum(self.counts.values())`, and `self.counts`
raises `AttributeError`. -/
def BlackholeResult.get_probability (r : BlackholeResult) (bitstring : String) :
    Except PyErr Rat :=
  match r.countsAttr with
  | .error e => .error e
  | .ok counts => .ok (probFromCounts counts bitstring)

/-- `BlackholeResult.get_expectation_value` (models.py lines 395-412):
likewise begins with `sum(self.counts.values())`. -/
def BlackholeResult.get_expectation_value (r : BlackholeResult)
    (observable : List (String × Rat)) : Except PyErr Rat :=
  match r.countsAttr with
  | .error e => .error e
  | .ok counts => .ok (expvalFromCounts counts observable)

/-! ## Job polling loop: `SNUQ.wait_for_job` (client.py lines 364-412) -/

/-- Python `job.status == "completed"`: equality of an arbitrary value with a
string literal (false for non-strings). -/
def Json.eqStr : Json → String → Bool
  | .str s, t => s = t
  | _, _ => false

/-- `{"error": v}`. -/
def errDict (v : Json) : Json := Json.obj [("error", v)]

/-- Python `v or fallback` on an optional payload value (falsy values fall
through to the fallback). -/
def pyOr (v : Option Json) (fallback : Json) : Json :=
  match v with
  | none => fallback
  | some j => if j.truthy then j else fallback

/-- One poll of the loop body up to and including the callback line:
`job = self.get_job(job_id)` (the response JSON or client-level error is the
`poll` input, and `get_job` applies `BlackholeJob.from_dict`), then
`status_callback(job.status, job.to_dict())` when a callback was supplied —
Python evaluates `job.to_dict()` before invoking the callback. -/
def pollFetch (status_callback : Bool) (poll : Except PyErr Json) :
    Except PyErr BlackholeJob := do
  let respJson ← poll
  let job ← BlackholeJob.from_dict respJson
  if status_callback then
    let _ ← job.to_dict
    pure job
  else
    pure job

/-- `wait_for_job`'s return value: `(True, job)` or `(False, {"error": ...})`.
The success payload is the `BlackholeJob` snapshot itself — the code returns
`True, job` and never calls `get_results`. -/
inductive WaitOutcome where
  | success (job : BlackholeJob)
  | failure (errorDict : Json)

/-- `SNUQ.wait_for_job`.  `polls` is the sequence of `get_job` outcomes the
server would deliver (an exhausted sequence models the time budget running
out with no further terminal status); `elapsed` starts at `0`; time advances
by `polling_interval` at each `time.sleep`.  The first component of the
result collects the `job.status` values the status callback was invoked
with, one per poll (it is returned alongside, purely as instrumentation: the
Python function returns only the outcome).  `except (JobError,
QuantumClientError)` converts a caught client error into the failure tuple;
any other exception of an iteration propagates. -/
def wait_for_job (status_callback : Bool) (polling_interval timeout : Nat) :
    List (Except PyErr Json) → Nat → Except PyErr (List Json × WaitOutcome)
  | [], _ =>
    .ok ([], .failure (errDict (Json.str "Timeout waiting for job completion")))
  | poll :: rest, elapsed =>
    if elapsed < timeout then
      match pollFetch status_callback poll with
      | .error e =>
        if isClientError e then
          .ok ([], .failure (errDict (Json.str (pyErrStr e))))
        else
          .error e
      | .ok job =>
        let obs := if status_callback then [job.status] else []
        if job.status.eqStr "completed" then
          .ok (obs, .success job)
        else if job.status.eqStr "error" then
          .ok (obs, .failure (errDict (pyOr job.error_message (Json.str "Job failed"))))
        else if job.status.eqStr "cancelled" then
          .ok (obs, .failure (errDict (Json.str "Job was cancelled")))
        else
          match wait_for_job status_callback polling_interval timeout rest
              (elapsed + polling_interval) with
          | .error e => .error e
          | .ok (obsRest, outcome) => .ok (obs ++ obsRest, outcome)
    else
      .ok ([], .failure (errDict (Json.str "Timeout waiting for job completion")))

/-! ## Job creation: `SNUQ.create_job` (client.py lines 238-302) -/

/-- The `circuit` argument of `create_job`.  A `QuantumCircuit` carries the
outcome of `qiskit.qasm2.dumps` (which may raise); a `str` carries the text
together with its `json.loads` parse (`none` when parsing fails); a `dict`
carries its JSON tree; anything else is `otherInput`. -/
inductive CircuitInput where
  | quantumCircuit (dump : Except String String)
  | strInput (text : String) (parsed : Option Json)
  | dictInput (d : Json)
  | otherInput

/-- `if "qasm" in circuit_dict: qasm = circuit_dict["qasm"] else: raise
ValueError(...)` (client.py lines 281-284), for the value `json.loads`
produced.  Python `in` is a key test on a dict, an element test on a list,
a substring test on a string, and raises `TypeError` on numbers, booleans
and `None` (not iterable); a successful membership on a list or string
still makes the subsequent `["qasm"]` indexing raise `TypeError` (string
key on a list/string index).  Interpreter messages are abridged. -/
def qasmFromParsed : Json → Except PyErr Json
  | .obj fields =>
    match lookupField fields "qasm" with
    | some q => .ok q
    | none =>
      .error (.valueError "Circuit dict (or JSON string) must contain a \x27qasm\x27 key.")
  | .arr elems =>
    if elems.any (fun e => e.eqStr "qasm") then
      .error (.typeError "list indices must be integers or slices, not str")
    else
      .error (.valueError "Circuit dict (or JSON string) must contain a \x27qasm\x27 key.")
  | .str s =>
    if containsSub s "qasm" then
      .error (.typeError "string indices must be integers")
    else
      .error (.valueError "Circuit dict (or JSON string) must contain a \x27qasm\x27 key.")
  | .num _ => .error (.typeError "argument is not iterable")
  | .bool _ => .error (.typeError "argument is not iterable")
  | .null => .error (.typeError "argument is not iterable")

/-- The circuit-normalisation cascade of `create_job` (client.py lines
270-288), producing the `qasm` payload value or the Python error raised. -/
def extractQasm : CircuitInput → Except PyErr Json
  | .quantumCircuit (.ok q) => .ok (Json.str q)
  | .quantumCircuit (.error e) =>
    .error (.valueError ("Failed to convert QuantumCircuit to qasm: " ++ e))
  | .strInput _ none => .error (.valueError "Invalid circuit JSON string")
  | .strInput _ (some circuitDict) => qasmFromParsed circuitDict
  | .dictInput d =>
    match d.getField "qasm" with
    | some q => .ok q
    | none =>
      .error (.valueError "Circuit must be a QuantumCircuit, a dict (or JSON string) with a \x27qasm\x27 key.")
  | .otherInput =>
    .error (.valueError "Circuit must be a QuantumCircuit, a dict (or JSON string) with a \x27qasm\x27 key.")

/-- The `job_data` request payload assembled by `create_job`. -/
structure JobData where
  circuit_info : Json
  backend : String
  shots : Int
  mitigation_params : Option Json
  name : Option String
  hamiltonian : Option Json
  experiment_type : Option String

/-- `create_job` up to the payload it submits (client.py lines 266-298): the
token gate, the circuit normalisation, and the optional
mitigation/name/hamiltonian fields; attaching a Hamiltonian also sets
`experiment_type` to `"EXPVAL"`.  (`if name:` makes an empty name behave
like no name.) -/
def create_job_data (token : Option String) (circuit : CircuitInput)
    (backend : String) (shots : Int)
    (mitigation_params : Option MitigationParams)
    (hamiltonian : Option Hamiltonian) (name : Option String) :
    Except PyErr JobData :=
  if tokenMissing token then
    .error (.authenticationError "Not authenticated. Call login() first.")
  else
    match extractQasm circuit with
    | .error e => .error e
    | .ok qasm =>
      .ok { circuit_info := qasm,
            backend := backend,
            shots := shots,
            mitigation_params := mitigation_params.map MitigationParams.to_dict,
            name := match name with
              | some n => if n.isEmpty then none else some n
              | none => none,
            hamiltonian := hamiltonian.map Hamiltonian.to_dict,
            experiment_type := match hamiltonian with
              | some _ => some "EXPVAL"
              | none => none }

/-! ## Concrete payloads used by the evaluations -/

/-- A QASM body, standing for the serialized Bell circuit of the test data. -/
def qasmBell : String := "OPENQASM 2.0; h q[0]; cx q[0], q[1];"

/-- A well-formed `JobDescriptor` JSON as the server returns it
(`circuit_info` is the QASM text the client itself submits). -/
def jobJson (status : String) : Json :=
  Json.obj [("id", Json.num 1), ("status", Json.str status),
            ("circuit_info", Json.str qasmBell),
            ("backend", Json.str "Cassiopeia"), ("shots", Json.num 1024),
            ("created_at", Json.str "2024-01-01T00:00:00Z"),
            ("updated_at", Json.str "2024-01-01T00:00:00Z")]

/-- The `BlackholeJob` that `from_dict` builds from `jobJson status`. -/
def jobSnapshot (status : String) : BlackholeJob :=
  { id := Json.num 1, status := Json.str status,
    circuit := Json.str qasmBell,
    backend := Json.str "Cassiopeia", shots := Json.num 1024,
    created_at := "2024-01-01T00:00:00+00:00",
    updated_at := "2024-01-01T00:00:00+00:00",
    error_message := none, mitigation_params := none,
    metadata := Json.obj [] }

/-- The status sequence created → running → completed, as `get_job` outcomes. -/
def traceCRC : List (Except PyErr Json) :=
  [.ok (jobJson "created"), .ok (jobJson "running"), .ok (jobJson "completed")]

/-- The counts payload `{"00": 500, "11": 524}`. -/
def countsJson : Json := Json.obj [("00", Json.num 500), ("11", Json.num 524)]

/-- The results payload with the counts nested under `processed_results`. -/
def resultPayload : Json :=
  Json.obj [("id", Json.num 1), ("job_id", Json.num 1),
            ("processed_results", Json.obj [("counts", countsJson)])]

/-- The observable `{"00": 1.0, "11": 1.0, "01": -1.0, "10": -1.0}`. -/
def bellObservable : List (String × Rat) :=
  [("00", 1), ("11", 1), ("01", -1), ("10", -1)]

/-! ## Helper lemmas -/

/-- With a token present, a supported-method request reduces to the
status-code handling of the response that arrived. -/
theorem make_request_eq_mapResponse {token : Option String} {endpoint : String}
    {r : HttpResponse} (htok : tokenMissing token = false) :
    make_request token "GET" endpoint (.response r) = mapResponse endpoint r := by
  simp [make_request, htok]

/-- With a token present, a transport exception is re-wrapped. -/
theorem make_request_exception {token : Option String} {endpoint m : String}
    (htok : tokenMissing token = false) :
    make_request token "GET" endpoint (.exception m) =
      .error (.quantumClientError ("Request failed: " ++ m)) := by
  simp [make_request, htok]

/-- Every rejection of `extractQasm` is a Python built-in `ValueError` or
`TypeError` (the latter exactly on the non-dict JSON-string parses of
client.py lines 281-282). -/
theorem extractQasm_error (circuit : CircuitInput) (e : PyErr)
    (h : extractQasm circuit = .error e) :
    (∃ m, e = .valueError m) ∨ (∃ m, e = .typeError m) := by
  rcases circuit with dump | ⟨text, parsed⟩ | d | _
  · rcases dump with q | msg <;> simp [extractQasm] at h
    exact .inl ⟨_, h.symm⟩
  · rcases parsed with _ | cd
    · simp [extractQasm] at h
      exact .inl ⟨_, h.symm⟩
    · simp only [extractQasm] at h
      rcases cd with _ | s | n | b | elems | fields
      · simp [qasmFromParsed] at h
        exact .inr ⟨_, h.symm⟩
      · by_cases hc : containsSub s "qasm" = true
        · simp [qasmFromParsed, hc] at h
          exact .inr ⟨_, h.symm⟩
        · simp [qasmFromParsed, hc] at h
          exact .inl ⟨_, h.symm⟩
      · simp [qasmFromParsed] at h
        exact .inr ⟨_, h.symm⟩
      · simp [qasmFromParsed] at h
        exact .inr ⟨_, h.symm⟩
      · by_cases hm : elems.any (fun el => el.eqStr "qasm") = true
        · simp [qasmFromParsed, hm] at h
          exact .inr ⟨_, h.symm⟩
        · simp [qasmFromParsed, hm] at h
          exact .inl ⟨_, h.symm⟩
      · rcases hl : lookupField fields "qasm" with _ | q <;>
          simp [qasmFromParsed, hl] at h
        exact .inl ⟨_, h.symm⟩
  · rcases hg : d.getField "qasm" with _ | q <;> simp [extractQasm, hg] at h
    exact .inl ⟨_, h.symm⟩
  · simp [extractQasm] at h
    exact .inl ⟨_, h.symm⟩

/-- Filtering out a different key does not change an association lookup. -/
theorem lookupField_filter_ne (fs : List (String × Json)) (k key : String)
    (h : key ≠ k) :
    lookupField (fs.filter (fun p => p.1 != k)) key = lookupField fs key := by
  induction fs with
  | nil => rfl
  | cons p rest ih =>
    rw [List.filter_cons]
    by_cases hp : p.1 = k
    · rw [if_neg (by simp [hp])]
      have hpk : ¬ p.1 = key := by
        rw [hp]
        exact fun contra => h contra.symm
      rw [ih]
      simp [lookupField, hpk]
    · rw [if_pos (by simp [hp])]
      simp only [lookupField]
      by_cases hkey : p.1 = key
      · rw [if_pos hkey, if_pos hkey]
      · rw [if_neg hkey, if_neg hkey]
        exact ih

/-- Erasing a different key does not change `getField`. -/
theorem getField_eraseField_ne (d : Json) (k key : String) (h : key ≠ k) :
    (d.eraseField k).getField key = d.getField key := by
  cases d <;> simp [Json.eraseField, Json.getField]
  exact lookupField_filter_ne _ k key h

/-! ## Claim C3 -/

/-- Claim C3: a request through `_make_request` to any endpoint other than
the login path (`"/api/token/"`, the token-obtaining endpoint the request
layer exempts) with no token set fails with `AuthenticationError` before any
network call is attempted — the result is the same for every transport
outcome; and the login path itself is exempt: processing proceeds to the
response handling. -/
theorem make_request_requires_token (token : Option String)
    (method endpoint : String) (net : TransportOutcome)
    (htok : tokenMissing token = true) :
    (endpoint ≠ loginExemptPath →
      make_request token method endpoint net =
        .error (.authenticationError "Not authenticated. Call login() first."))
    ∧ (∀ r : HttpResponse,
        make_request token "GET" loginExemptPath (.response r) =
          mapResponse loginExemptPath r) := by
  constructor
  · intro hne
    simp [make_request, htok, hne]
  · intro r
    simp [make_request]

/-- Claim C3 witness: with no token, a job-list request fails with the
authentication error even though the transport would have answered 200. -/
theorem make_request_requires_token_witness :
    make_request none "GET" "/api/runner/jobs/"
        (.response ⟨200, "", some (Json.obj [])⟩) =
      .error (.authenticationError "Not authenticated. Call login() first.") :=
  (make_request_requires_token none "GET" "/api/runner/jobs/"
    (.response ⟨200, "", some (Json.obj [])⟩) rfl).1 (by decide)

/-! ## Claim C2 -/

/-- Claim C2 counterexample: a 500 response raises the generic
`QuantumClientError` (there is no `ServiceError` class in the taxonomy), and
a 401 response carries the message "Authentication failed", not the claimed
"authentication failed". -/
theorem make_request_status_map_counterexample :
    make_request (some "tok") "GET" "/api/hardware/"
        (.response ⟨500, "boom", none⟩) =
      .error (.quantumClientError "Server error: boom")
    ∧ make_request (some "tok") "GET" "/api/hardware/"
        (.response ⟨401, "x", none⟩) =
      .error (.authenticationError "Authentication failed")
    ∧ "Authentication failed" ≠ "authentication failed" :=
  ⟨rfl, rfl, by decide⟩

/-- Claim C2 (amended): with a token set, `_make_request` maps status ≥500
to the generic `QuantumClientError` with message `"Server error: " + body`;
401 to `AuthenticationError("Authentication failed")`; 403 to
`AuthenticationError("Permission denied")`; any other status ≥400 with a
parsed JSON body to `JobError`/`ExperimentError`/`BackendError`/
`QuantumClientError` according to which of the substrings `job`,
`experiment`, `backend` the endpoint contains first, each carrying the
payload's string `"error"` field when present and a fixed fallback
otherwise; and a transport exception is re-wrapped into
`QuantumClientError("Request failed: ...")`, never propagated raw. -/
theorem make_request_status_mapping (token : Option String) (endpoint : String)
    (r : HttpResponse) (m : String) (htok : tokenMissing token = false) :
    (500 ≤ r.status →
      make_request token "GET" endpoint (.response r) =
        .error (.quantumClientError ("Server error: " ++ r.text)))
    ∧ (r.status = 401 →
      make_request token "GET" endpoint (.response r) =
        .error (.authenticationError "Authentication failed"))
    ∧ (r.status = 403 →
      make_request token "GET" endpoint (.response r) =
        .error (.authenticationError "Permission denied"))
    ∧ (∀ ed : Json, 400 ≤ r.status → r.status < 500 → r.status ≠ 401 →
        r.status ≠ 403 → r.text ≠ "" → r.json = some ed →
        containsSub endpoint "job" = true →
        make_request token "GET" endpoint (.response r) =
          .error (.jobError (errMsgOf ed "Job operation failed")))
    ∧ (∀ ed : Json, 400 ≤ r.status → r.status < 500 → r.status ≠ 401 →
        r.status ≠ 403 → r.text ≠ "" → r.json = some ed →
        containsSub endpoint "job" = false →
        containsSub endpoint "experiment" = true →
        make_request token "GET" endpoint (.response r) =
          .error (.experimentError (errMsgOf ed "Experiment operation failed")))
    ∧ (∀ ed : Json, 400 ≤ r.status → r.status < 500 → r.status ≠ 401 →
        r.status ≠ 403 → r.text ≠ "" → r.json = some ed →
        containsSub endpoint "job" = false →
        containsSub endpoint "experiment" = false →
        containsSub endpoint "backend" = true →
        make_request token "GET" endpoint (.response r) =
          .error (.backendError (errMsgOf ed "Backend operation failed")))
    ∧ (∀ ed : Json, 400 ≤ r.status → r.status < 500 → r.status ≠ 401 →
        r.status ≠ 403 → r.text ≠ "" → r.json = some ed →
        containsSub endpoint "job" = false →
        containsSub endpoint "experiment" = false →
        containsSub endpoint "backend" = false →
        make_request token "GET" endpoint (.response r) =
          .error (.quantumClientError (errMsgOf ed "Operation failed")))
    ∧ (∀ (fb s : String) (ed : Json), ed.getField "error" = some (.str s) →
        errMsgOf ed fb = s)
    ∧ (∀ (fb : String) (ed : Json), ed.getField "error" = none →
        errMsgOf ed fb = fb)
    ∧ make_request token "GET" endpoint (.exception m) =
        .error (.quantumClientError ("Request failed: " ++ m)) := by
  obtain ⟨st, text, json⟩ := r
  refine ⟨?_, ?_, ?_, ?_, ?_, ?_, ?_, ?_, ?_, ?_⟩
  · intro h
    rw [make_request_eq_mapResponse htok]
    simp only [mapResponse]
    rw [if_pos h]
  · intro h
    subst h
    rw [make_request_eq_mapResponse htok]
    simp [mapResponse]
  · intro h
    subst h
    rw [make_request_eq_mapResponse htok]
    simp [mapResponse]
  · intro ed h400 h500 h401 h403 htext hjson hjob
    rw [make_request_eq_mapResponse htok]
    simp only [mapResponse, errorData] at *
    rw [if_neg (by omega), if_neg (by simpa using h401), if_neg (by simpa using h403),
      if_pos (by omega), if_neg htext, hjson]
    simp [hjob]
  · intro ed h400 h500 h401 h403 htext hjson hjob hexp
    rw [make_request_eq_mapResponse htok]
    simp only [mapResponse, errorData] at *
    rw [if_neg (by omega), if_neg (by simpa using h401), if_neg (by simpa using h403),
      if_pos (by omega), if_neg htext, hjson]
    simp [hjob, hexp]
  · intro ed h400 h500 h401 h403 htext hjson hjob hexp hback
    rw [make_request_eq_mapResponse htok]
    simp only [mapResponse, errorData] at *
    rw [if_neg (by omega), if_neg (by simpa using h401), if_neg (by simpa using h403),
      if_pos (by omega), if_neg htext, hjson]
    simp [hjob, hexp, hback]
  · intro ed h400 h500 h401 h403 htext hjson hjob hexp hback
    rw [make_request_eq_mapResponse htok]
    simp only [mapResponse, errorData] at *
    rw [if_neg (by omega), if_neg (by simpa using h401), if_neg (by simpa using h403),
      if_pos (by omega), if_neg htext, hjson]
    simp [hjob, hexp, hback]
  · intro fb s ed h
    simp [errMsgOf, h]
  · intro fb ed h
    simp [errMsgOf, h]
  · exact make_request_exception htok

/-- Claim C2 witness: a 404 on a job endpoint with a server-supplied error
message yields `JobError` carrying that message. -/
theorem make_request_status_mapping_witness :
    tokenMissing (some "tok") = false
    ∧ make_request (some "tok") "GET" "/api/runner/jobs/9/"
        (.response ⟨404, "x", some (Json.obj [("error", Json.str "no such job")])⟩) =
      .error (.jobError "no such job") := by
  refine ⟨rfl, ?_⟩
  have h := make_request_status_mapping (some "tok") "/api/runner/jobs/9/"
    ⟨404, "x", some (Json.obj [("error", Json.str "no such job")])⟩ "unused" rfl
  have h4 := h.2.2.2.1 (Json.obj [("error", Json.str "no such job")])
    (by norm_num) (by norm_num) (by norm_num) (by norm_num) (by decide) rfl rfl
  simpa [errMsgOf, Json.getField, lookupField] using h4

/-! ## Claim C6 -/

/-- Claim C6 counterexample: with `num_qubits` supplied, a `Hamiltonian` with
zero operators and coefficients constructs successfully (the "at least one
element" invariant is not enforced), and the length-mismatch input
`operators=["XZ","II"], coefficients=[1.0]` raises the Python built-in
`ValueError`, not the library's `ValidationError`. -/
theorem hamiltonian_claim_counterexample :
    mkHamiltonian [] [] (some 2) = .ok ⟨[], [], 2⟩
    ∧ mkHamiltonian ["XZ", "II"] [1] none =
        .error (.valueError
          "Expected same length for operators (2) and coefficients (1).")
    ∧ isValidationError (.valueError
        "Expected same length for operators (2) and coefficients (1).") = false :=
  ⟨rfl, rfl, rfl⟩

/-- Claim C6 (amended): every successfully constructed `Hamiltonian` has
`operators` and `coefficients` of equal length, and a length mismatch fails
at construction time with `ValueError` (the nonemptiness of `operators` is
only enforced indirectly, when `num_qubits` is omitted). -/
theorem hamiltonian_equal_length_invariant :
    (∀ (ops : List String) (coeffs : List Rat) (nq : Option Nat)
        (h : Hamiltonian), mkHamiltonian ops coeffs nq = .ok h →
      h.operators.length = h.coefficients.length)
    ∧ (∀ (ops : List String) (coeffs : List Rat) (nq : Option Nat),
        ops.length ≠ coeffs.length →
      mkHamiltonian ops coeffs nq =
        .error (.valueError (lenMismatchMsg ops.length coeffs.length))) := by
  constructor
  · intro ops coeffs nq h hok
    by_cases hlen : ops.length = coeffs.length
    · unfold mkHamiltonian at hok
      rw [if_neg (by omega)] at hok
      rcases nq with _ | n
      · rcases ops with _ | ⟨op, ops'⟩
        · simp at hok
        · rcases hf : (op :: ops').find? (fun o => o.isEmpty) with _ | o <;>
            simp [hf] at hok
          subst hok
          simpa using hlen
      · rcases hf : ops.find? (fun o => o.isEmpty) with _ | o <;>
          simp [hf] at hok
        subst hok
        simpa using hlen
    · unfold mkHamiltonian at hok
      rw [if_pos hlen] at hok
      simp at hok
  · intro ops coeffs nq hne
    unfold mkHamiltonian
    rw [if_pos hne]

/-- Claim C6 witness: a well-formed two-term construction and the concrete
mismatch rejection. -/
theorem hamiltonian_equal_length_invariant_witness :
    (⟨["XZ", "II"], [1, 2], 2⟩ : Hamiltonian).operators.length =
      (⟨["XZ", "II"], [1, 2], 2⟩ : Hamiltonian).coefficients.length
    ∧ mkHamiltonian ["XZ", "II"] [1] none =
        .error (.valueError (lenMismatchMsg 2 1)) := by
  constructor
  · exact hamiltonian_equal_length_invariant.1 ["XZ", "II"] [1, 2] none _ rfl
  · exact hamiltonian_equal_length_invariant.2 ["XZ", "II"] [1] none (by decide)

/-! ## Claim C8 -/

/-- Claim C8 counterexample: a circuit argument that is neither a
`QuantumCircuit` nor a string nor a dict is rejected by `create_job` with
the Python built-in `ValueError`, not with the library's `ValidationError`. -/
theorem create_job_rejects_with_value_error :
    create_job_data (some "tok") .otherInput "Cassiopeia" 1024 none none none =
      .error (.valueError
        "Circuit must be a QuantumCircuit, a dict (or JSON string) with a \x27qasm\x27 key.")
    ∧ isValidationError (.valueError
        "Circuit must be a QuantumCircuit, a dict (or JSON string) with a \x27qasm\x27 key.") = false :=
  ⟨rfl, rfl⟩

/-- Claim C8 (amended): with a token set, `create_job` normalizes the circuit
argument to the QASM value `extractQasm` produces (a dumped
`QuantumCircuit`, a JSON string parsing to a dict with a `qasm` key, or a
dict with a `qasm` key).  Every rejection is a Python built-in error and
never the library's `ValidationError`: a `ValueError` for a wrong-typed
argument, an unparseable JSON string, or a dict (parsed or plain) lacking a
`qasm` key, and a `TypeError` when the string parses to non-dict JSON (the
membership test or the subsequent `["qasm"]` indexing fails), as the last
two conjuncts exhibit.  The submitted payload carries
`experiment_type = "EXPVAL"` exactly when a Hamiltonian is attached. -/
theorem create_job_normalization (token : Option String)
    (circuit : CircuitInput) (backend : String) (shots : Int)
    (mp : Option MitigationParams) (ham : Option Hamiltonian)
    (name : Option String) (htok : tokenMissing token = false) :
    (∀ e : PyErr,
      create_job_data token circuit backend shots mp ham name = .error e →
      ((∃ m, e = .valueError m) ∨ (∃ m, e = .typeError m))
      ∧ isValidationError e = false)
    ∧ (∀ d : JobData,
      create_job_data token circuit backend shots mp ham name = .ok d →
      extractQasm circuit = .ok d.circuit_info
      ∧ (ham.isSome → d.experiment_type = some "EXPVAL")
      ∧ (ham = none → d.experiment_type = none))
    ∧ (∀ (text : String) (n : Rat),
      create_job_data token (.strInput text (some (Json.num n)))
          backend shots mp ham name =
        .error (.typeError "argument is not iterable"))
    ∧ (∀ text : String,
      create_job_data token (.strInput text (some (Json.arr [Json.str "qasm"])))
          backend shots mp ham name =
        .error (.typeError "list indices must be integers or slices, not str")) := by
  refine ⟨?_, ?_, ?_, ?_⟩
  · unfold create_job_data
    rw [if_neg (by simp [htok])]
    rcases hq : extractQasm circuit with e0 | q
    · intro e he
      simp at he
      subst he
      have hd := extractQasm_error circuit e0 hq
      refine ⟨hd, ?_⟩
      rcases hd with ⟨m, rfl⟩ | ⟨m, rfl⟩ <;> rfl
    · intro e he
      simp at he
  · unfold create_job_data
    rw [if_neg (by simp [htok])]
    rcases hq : extractQasm circuit with e0 | q
    · intro d hd
      simp at hd
    · intro d hd
      simp at hd
      subst hd
      refine ⟨by simp [hq], ?_, ?_⟩
      · intro hsome
        rcases ham with _ | hval
        · simp at hsome
        · rfl
      · intro hnone
        subst hnone
        rfl
  · intro text n
    unfold create_job_data
    rw [if_neg (by simp [htok])]
    rfl
  · intro text
    unfold create_job_data
    rw [if_neg (by simp [htok])]
    rfl

/-- Claim C8 witness: a dict circuit with a `qasm` key and a Hamiltonian
attached produces a payload whose `circuit_info` is that QASM value and
whose `experiment_type` is `"EXPVAL"`; an unparseable-string rejection is a
built-in error and not a `ValidationError`; the JSON string `"5"` (parsing
to the integer 5) is rejected with `TypeError`. -/
theorem create_job_normalization_witness :
    (extractQasm (.dictInput (Json.obj [("qasm", Json.str qasmBell)])) =
      .ok (Json.str qasmBell)
    ∧ (some "EXPVAL" : Option String) = some "EXPVAL")
    ∧ (((∃ m, PyErr.valueError "Invalid circuit JSON string" = .valueError m)
        ∨ (∃ m, PyErr.valueError "Invalid circuit JSON string" = .typeError m))
      ∧ isValidationError (.valueError "Invalid circuit JSON string") = false)
    ∧ create_job_data (some "tok") (.strInput "5" (some (Json.num 5)))
        "Cassiopeia" 1024 none none none =
      .error (.typeError "argument is not iterable") := by
  refine ⟨?_, ?_, ?_⟩
  · have h := (create_job_normalization (some "tok")
      (.dictInput (Json.obj [("qasm", Json.str qasmBell)])) "Cassiopeia" 1024
      none (some ⟨["XZ", "II"], [1, 2], 2⟩) none rfl).2.1
      { circuit_info := Json.str qasmBell, backend := "Cassiopeia",
        shots := 1024, mitigation_params := none, name := none,
        hamiltonian := some (Hamiltonian.to_dict ⟨["XZ", "II"], [1, 2], 2⟩),
        experiment_type := some "EXPVAL" } rfl
    exact ⟨h.1, h.2.1 rfl⟩
  · exact (create_job_normalization (some "tok")
      (.strInput "not json" none) "Cassiopeia" 1024 none none none rfl).1
      (.valueError "Invalid circuit JSON string") rfl
  · exact (create_job_normalization (some "tok")
      (.strInput "5" (some (Json.num 5))) "Cassiopeia" 1024 none none none
      rfl).2.2.1 "5" 5

/-! ## Claim C9 -/

/-- Claim C9 counterexample: a results payload carrying the counts only at
top level (the shape the repository's own tests feed) decodes to a
`BlackholeResult` with `processed_results = none` — no field of the record
holds the counts, so the record does not expose the outcome data. -/
theorem result_from_dict_ignores_top_level_counts :
    BlackholeResult.from_dict
        (Json.obj [("job_id", Json.num 1), ("counts", countsJson)]) =
      { id := none, job_id := some (Json.num 1), metadata := Json.obj [],
        processed_results := none, mitigation_params := none } :=
  rfl

/-- Claim C9 (amended): `BlackholeResult.from_dict` exposes the nested
`processed_results` subtree verbatim (so `processed_results.counts` or
`processed_results.expval` are available through it), and a top-level
`counts` field is ignored: erasing it changes nothing in the decode.  There
is no preference logic between the two schemas. -/
theorem result_from_dict_schema (d : Json) :
    BlackholeResult.from_dict (d.eraseField "counts") =
      BlackholeResult.from_dict d
    ∧ (BlackholeResult.from_dict d).processed_results =
      d.getField "processed_results" := by
  constructor
  · have h1 := getField_eraseField_ne d "counts" "id" (by decide)
    have h2 := getField_eraseField_ne d "counts" "job_id" (by decide)
    have h3 := getField_eraseField_ne d "counts" "metadata" (by decide)
    have h4 := getField_eraseField_ne d "counts" "processed_results" (by decide)
    have h5 := getField_eraseField_ne d "counts" "mitigation_params" (by decide)
    simp [BlackholeResult.from_dict, h1, h2, h3, h4, h5]
  · rfl

/-! ## Claim C10 -/

/-- Claim C10: whenever the loop of `wait_for_job` reaches an iteration
whose `get_job` call raises `AuthenticationError` (within the time budget),
the error is caught — `AuthenticationError` is a `QuantumClientError`, the
base class of the `except` clause — and the loop returns the failure tuple
`(False, {"error": <the error message>})` instead of propagating, for any
callback setting and any remaining trace. -/
theorem wait_for_job_catches_auth_error (msg : String)
    (rest : List (Except PyErr Json)) (cb : Bool)
    (interval timeout elapsed : Nat) (h : elapsed < timeout) :
    isClientError (.authenticationError msg) = true
    ∧ wait_for_job cb interval timeout
        (.error (.authenticationError msg) :: rest) elapsed =
      .ok ([], .failure (errDict (Json.str msg))) := by
  refine ⟨rfl, ?_⟩
  unfold wait_for_job
  rw [if_pos h]
  rfl

/-- Claim C10 witness: a 403-style authentication failure on the first poll
is converted into the failure tuple. -/
theorem wait_for_job_catches_auth_error_witness :
    wait_for_job true 5 300
        [.error (.authenticationError "Permission denied")] 0 =
      .ok ([], .failure (errDict (Json.str "Permission denied"))) :=
  (wait_for_job_catches_auth_error "Permission denied" [] true 5 300 0
    (by decide)).2

/-! ## Claim C1 -/

/-- Claim C1 evaluation at its own scenario, refuting it: on the status
sequence created → running → completed, `wait_for_job` without a callback
returns `(True, job)` where `job` is the final `BlackholeJob` snapshot — it
never fetches the `ResultRecord` (`get_results` is not called; the success
payload is the job descriptor); and with the status callback supplied the
call instead raises `AttributeError` on the very first poll (the callback
argument `job.to_dict()` evaluates `self.circuit.to_dict()` on the raw
`circuit_info` string), so the callback observes no statuses at all. -/
theorem wait_for_job_returns_job_not_result :
    wait_for_job false 5 300 traceCRC 0 =
      .ok ([], .success (jobSnapshot "completed"))
    ∧ wait_for_job true 5 300 traceCRC 0 = .error (.attributeError "to_dict") :=
  ⟨rfl, rfl⟩

/-! ## Claim C4 -/

/-- Claim C4 evaluation at its failing input, refuting it: with a status
callback supplied, a single well-formed poll response makes `wait_for_job`
raise `AttributeError` — `job.to_dict()` fails on the raw `circuit_info`
value and `AttributeError` is not caught by
`except (JobError, QuantumClientError)` — instead of returning a
`(bool, value)` tuple. -/
theorem wait_for_job_callback_raises :
    wait_for_job true 5 300 [.ok (jobJson "created")] 0 =
      .error (.attributeError "to_dict")
    ∧ isClientError (.attributeError "to_dict") = false :=
  ⟨rfl, rfl⟩

/-! ## Claim C5 -/

/-- Claim C5 evaluation at a valid JobDescriptor JSON, refuting the
round-trip: decoding succeeds, but encoding the decoded job back raises
`AttributeError`, because `to_dict` calls `self.circuit.to_dict()` and
`circuit` holds the raw `circuit_info` JSON value (a string), which has no
`to_dict` attribute.  The round trip decode → encode therefore reproduces
nothing: it crashes for every valid JobDescriptor JSON. -/
theorem job_roundtrip_encode_fails :
    BlackholeJob.from_dict (jobJson "created") = .ok (jobSnapshot "created")
    ∧ (jobSnapshot "created").to_dict = .error (.attributeError "to_dict") :=
  ⟨rfl, rfl⟩

/-! ## Claim C7 -/

/-- Claim C7 evaluation, refuting it as a statement about the code while
confirming its arithmetic: on the `BlackholeResult` decoded from the
results payload with counts `{"00": 500, "11": 524}`, both
`get_probability("00")` and `get_expectation_value(...)` raise
`AttributeError` — the dataclass has no `counts` attribute — whereas the
formula those methods were written to compute does yield `500/1024` and
`1` on those counts. -/
theorem get_probability_attribute_error :
    (BlackholeResult.from_dict resultPayload).get_probability "00" =
      .error (.attributeError "counts")
    ∧ (BlackholeResult.from_dict resultPayload).get_expectation_value
        bellObservable = .error (.attributeError "counts")
    ∧ probFromCounts countsJson "00" = 500 / 1024
    ∧ expvalFromCounts countsJson bellObservable = 1 := by
  refine ⟨rfl, rfl, ?_, ?_⟩
  · simp [probFromCounts, countOf, sumValues, countsJson, Json.getField,
      lookupField]
    norm_num
  · simp [expvalFromCounts, sumValues, countsJson, bellObservable,
      Json.getField, lookupField]
    norm_num

end Pyqcsnu
